import Mathlib

set_option maxRecDepth 8000
set_option maxHeartbeats 1000000

/-!
Verification development for `opengl_patcher.py` (m0nnnna/macopengl_patcher).

The program is a sequential set of filesystem and subprocess operations.
We embed it shallowly:

* the filesystem is a partial map from paths to file contents
  (`FS := String → Option String`); directories are not tracked, since the
  script only ever creates them with `exist_ok=True` and no claim depends
  on them;
* nondeterministic external effects (success of `open(..., "w")`,
  `codesign`, `xattr`, and the backup timestamp) are supplied by an
  environment record `Env`;
* `sys.exit(1)` and an uncaught Python exception are distinguished
  outcomes of an operation (`Res.exit` / `Res.raised`);
* `print` output is accumulated as a list of lines, and `subprocess.run`
  invocations as a list of argv lists (error objects interpolated into
  messages, such as a `CalledProcessError`, are rendered as a fixed
  placeholder since their text comes from the OS).

Python string methods used by the source (`str.lower`, single-character
`str.replace`, `os.path.dirname`, `os.path.basename`) are re-implemented
over character lists because the corresponding Lean library functions do
not reduce in the kernel; the app names involved are ASCII, for which the
re-implementations agree with Python.
-/

/-- ASCII lower-casing of one character, as `str.lower` acts on the ASCII
letters appearing in the configured app names; other characters are kept. -/
def lowerChar (c : Char) : Char :=
  match c with
  | 'A' => 'a' | 'B' => 'b' | 'C' => 'c' | 'D' => 'd' | 'E' => 'e'
  | 'F' => 'f' | 'G' => 'g' | 'H' => 'h' | 'I' => 'i' | 'J' => 'j'
  | 'K' => 'k' | 'L' => 'l' | 'M' => 'm' | 'N' => 'n' | 'O' => 'o'
  | 'P' => 'p' | 'Q' => 'q' | 'R' => 'r' | 'S' => 's' | 'T' => 't'
  | 'U' => 'u' | 'V' => 'v' | 'W' => 'w' | 'X' => 'x' | 'Y' => 'y'
  | 'Z' => 'z' | c => c

/-- `s.lower()` on ASCII strings. -/
def strLower (s : String) : String := ⟨s.data.map lowerChar⟩

/-- `s.replace(a, b)` for a single-character pattern `a` and single-character
replacement `b` (the only form the source uses). -/
def strReplaceChar (s : String) (a b : Char) : String :=
  ⟨s.data.map fun c => if c = a then b else c⟩

/-- `os.path.basename`: the part of the path after the last slash. -/
def basename (p : String) : String :=
  ⟨((p.data.reverse.takeWhile fun c => c ≠ '/').reverse)⟩

/-- `os.path.dirname`: the part of the path before the last slash. -/
def dirname (p : String) : String :=
  ⟨(((p.data.reverse.dropWhile fun c => c ≠ '/').drop 1).reverse)⟩

/-- Decidable path-prefix test used only to state frame conditions. -/
def listLeads : List Char → List Char → Bool
  | [], _ => true
  | _ :: _, [] => false
  | a :: as, b :: bs => a = b && listLeads as bs

/-- `p` lies strictly inside directory `d` (it starts with `d ++ "/"`). -/
def insideDir (d p : String) : Bool := listLeads (d ++ "/").data p.data

/-- `' '.join(l)`. -/
def joinSpace (l : List String) : String := " ".intercalate l

/-- `' '.join(f'"{flag}"' for flag in flags)`. -/
def quotedJoin (l : List String) : String :=
  " ".intercalate (l.map fun f => "\"" ++ f ++ "\"")

/-! ## Filesystem model -/

/-- A filesystem: file path → contents. -/
abbrev FS := String → Option String

/-- `open(p, "w").write(content)` (plus the `chmod` the source always pairs
with it): set the file at `p` to `content`. -/
def writeFile (fs : FS) (p content : String) : FS :=
  fun q => if q = p then some content else fs q

/-- Remove the file at `p`. -/
def removeFile (fs : FS) (p : String) : FS :=
  fun q => if q = p then none else fs q

/-- `shutil.move(src, dst)` for regular files (the source never moves a path
onto itself): `dst` receives the contents of `src` and `src` disappears. -/
def moveFile (fs : FS) (src dst : String) : FS :=
  removeFile (writeFile fs dst ((fs src).getD "")) src

/-- `shutil.copy(src, dst)` for a file destination. -/
def copyFile (fs : FS) (src dst : String) : FS :=
  writeFile fs dst ((fs src).getD "")

/-- Outcome of opening a path for writing (with the accompanying `chmod`):
success, `PermissionError`, or some other `OSError`/exception. A failed
write is modelled as leaving the file unchanged. -/
inductive WriteOutcome where
  | ok
  | permDenied
  | otherErr
deriving DecidableEq, Repr

/-- The ambient nondeterminism of one operation invocation: per-path write
outcomes, success of the two external tools `codesign` and `xattr`, and the
`datetime.now()` timestamp used in backup names. -/
structure Env where
  write : String → WriteOutcome
  codesign : Bool
  xattr : Bool
  timestamp : String

/-- How a modelled Python call ends: a normal return value, `sys.exit`,
or an exception escaping the call. -/
inductive Res (α : Type) where
  | ok (a : α)
  | exit (code : Nat)
  | raised
deriving DecidableEq, Repr

/-- Result of one modelled operation: its outcome, the filesystem after it,
the lines it printed, and the external commands it invoked. -/
structure OpResult (α : Type) where
  res : Res α
  fs : FS
  out : List String
  cmds : List (List String)

/-! ## Configuration (translated from the top of `opengl_patcher.py`) -/

/-- One entry of `APPS_TO_PATCH`: `{name, flags, executable, method}`.
`method` is optional because the orchestrator reads it with
`app_info.get("method", "patch")`. -/
structure AppInfo where
  name : String
  flags : List String
  executable : String
  method : Option String
deriving DecidableEq, Repr

def INSTALL_DIR : String := "/usr/local/bin"

/-- `os.path.expanduser("~/Applications")`; the expansion of `~` is left
symbolic since no claim depends on the concrete home directory. -/
def WRAPPER_DIR : String := "~/Applications"

/-- The static configuration table, in source (insertion) order. -/
def APPS_TO_PATCH : List (String × AppInfo) :=
  [("/Applications/Google Chrome.app",
    ⟨"Google Chrome", ["--use-gl=desktop"], "Contents/MacOS/Google Chrome", some "patch"⟩),
   ("/Applications/Discord.app",
    ⟨"Discord", ["--use-gl=desktop"], "Contents/MacOS/Discord", some "patch"⟩),
   ("/Applications/Spotify.app",
    ⟨"Spotify", ["--use-gl=desktop"], "Contents/MacOS/Spotify", some "script"⟩),
   ("/Applications/Visual Studio Code.app",
    ⟨"Visual Studio Code", ["--use-gl=desktop"], "Contents/MacOS/Visual Studio Code", some "patch"⟩),
   ("/Applications/Slack.app",
    ⟨"Slack", ["--use-gl=desktop"], "Contents/MacOS/Slack", some "patch"⟩),
   ("/Applications/Microsoft Teams.app",
    ⟨"Microsoft Teams", ["--use-gl=desktop"], "Contents/MacOS/Microsoft Teams", some "patch"⟩),
   ("/Applications/OBS.app",
    ⟨"OBS Studio", ["--use-gl=desktop"], "Contents/MacOS/OBS", some "patch"⟩)]

/-! ## Derived paths -/

/-- `f"{app_path}/{app_info['executable']}"`. -/
def exePath (app_path : String) (info : AppInfo) : String :=
  app_path ++ "/" ++ info.executable

/-- `f"{executable_path}.orig"`. -/
def sidecarPath (app_path : String) (info : AppInfo) : String :=
  exePath app_path info ++ ".orig"

/-- The backup path `backup_file` produces for `file_path` at timestamp `ts`. -/
def backupPathOf (file_path ts : String) : String :=
  dirname file_path ++ "/Backups" ++ "/" ++ basename file_path ++ ".backup_" ++ ts

/-! ## `backup_file` -/

/-- `backup_file(file_path)`: if the file exists, copy it to a timestamped
path under a sibling `Backups` directory and return `True`; otherwise print
an error and return `False` with no side effect. -/
def backup_file (env : Env) (fs : FS) (file_path : String) : Bool × FS × List String :=
  if (fs file_path).isNone then
    (false, fs, ["Error: " ++ file_path ++ " not found."])
  else
    let backup_path := backupPathOf file_path env.timestamp
    (true, copyFile fs file_path backup_path, ["Backup created: " ++ backup_path])

/-! ## `resign_app` -/

/-- `resign_app(app_path, app_name)`: run `codesign --deep -f -s - app_path`;
on failure return `False`. On success run `xattr -r -d com.apple.quarantine`;
its failure is only logged, and the function returns `True` either way. -/
def resign_app (env : Env) (app_path app_name : String) :
    Bool × List String × List (List String) :=
  let out0 := ["Resigning " ++ app_name ++ " at " ++ app_path ++ "..."]
  let c1 : List (List String) := [["codesign", "--deep", "-f", "-s", "-", app_path]]
  if env.codesign then
    let out1 := out0 ++ ["Successfully resigned " ++ app_name ++ ".",
                         "Removing quarantine attribute for " ++ app_name ++ "..."]
    let c2 := c1 ++ [["xattr", "-r", "-d", "com.apple.quarantine", app_path]]
    if env.xattr then
      (true, out1 ++ ["Quarantine attribute removed for " ++ app_name ++ "."], c2)
    else
      (true, out1 ++ ["Failed to remove quarantine attribute: <error>"], c2)
  else
    (false, out0 ++ ["Failed to resign " ++ app_name ++ ": <error>"], c1)

/-! ## `patch_in_bundle` -/

/-- The in-bundle wrapper script text (the f-string at lines 108–112 of the
source), as a function of the interpolated values. -/
def wrapper_script (app_name : String) (flags : List String)
    (original_executable : String) : String :=
  "#!/bin/bash\n" ++
  "# Launch " ++ app_name ++ " with OpenGL flags\n" ++
  "echo \"$(date): Launching " ++ app_name ++ " with flags: " ++ joinSpace flags ++
    "\" >> ~/Library/Logs/" ++ app_name ++ "_wrapper.log\n" ++
  "exec \"" ++ original_executable ++ "\" " ++ quotedJoin flags ++ " \"$@\"\n"

/-- Second half of `patch_in_bundle` (from the wrapper write at line 113 on):
write the wrapper, then re-sign; on signing failure move the sidecar back.
`fs`/`out` are the state after the backup/sidecar stage. -/
def patch_write_and_sign (env : Env) (app_path : String) (info : AppInfo)
    (fs : FS) (out : List String) : OpResult Bool :=
  let app_name := info.name
  let executable_path := exePath app_path info
  let original_executable := sidecarPath app_path info
  match env.write executable_path with
  | .permDenied =>
      ⟨.exit 1, fs,
        out ++ ["Permission denied. Please run with sudo: sudo python3 <argv0>"], []⟩
  | .otherErr =>
      ⟨.ok false, fs, out ++ ["Error writing wrapper for " ++ app_name ++ ": <error>"], []⟩
  | .ok =>
      let fs1 := writeFile fs executable_path
        (wrapper_script app_name info.flags original_executable)
      let out1 := out ++ ["Wrapper script created for " ++ app_name ++ "."]
      let r := resign_app env app_path app_name
      if r.1 then
        ⟨.ok true, fs1, out1 ++ r.2.1, r.2.2⟩
      else
        ⟨.ok false, moveFile fs1 original_executable executable_path,
          out1 ++ r.2.1 ++
            ["Restoring original executable for " ++ app_name ++ " due to signing failure..."],
          r.2.2⟩

/-- `patch_in_bundle(app_path, app_info)`: replace the app executable with a
wrapper script, keeping the original as `<executable>.orig`. -/
def patch_in_bundle (env : Env) (fs : FS) (app_path : String) (info : AppInfo) :
    OpResult Bool :=
  let app_name := info.name
  let executable_path := exePath app_path info
  let out0 := ["Patching " ++ app_name ++ " in-bundle at " ++ executable_path ++
               " with flags: " ++ joinSpace info.flags ++ "..."]
  if (fs executable_path).isNone then
    ⟨.ok false, fs, out0 ++ ["Skipping " ++ app_name ++ ": Executable not found."], []⟩
  else
    let original_executable := sidecarPath app_path info
    if (fs original_executable).isNone then
      let b := backup_file env fs executable_path
      if b.1 then
        patch_write_and_sign env app_path info
          (moveFile b.2.1 executable_path original_executable) (out0 ++ b.2.2)
      else
        ⟨.ok false, b.2.1, out0 ++ b.2.2, []⟩
    else
      patch_write_and_sign env app_path info fs
        (out0 ++ ["Original executable already backed up at " ++ original_executable ++ "."])

/-! ## `create_script_and_wrapper` -/

/-- The external launcher script text (the f-string at lines 151–155 of the
source). -/
def launch_script (app_name : String) (flags : List String)
    (executable_path : String) : String :=
  "#!/bin/bash\n" ++
  "# Launch " ++ app_name ++ " with OpenGL flags\n" ++
  "echo \"$(date): Launching " ++ app_name ++ " with flags: " ++ joinSpace flags ++
    "\" >> ~/Library/Logs/" ++ app_name ++ "_launch.log\n" ++
  "exec \"" ++ executable_path ++ "\" " ++ quotedJoin flags ++ " \"$@\"\n"

/-- The generated `Info.plist` text (the f-string at lines 185–201 of the
source), as a function of the interpolated `app_name`. -/
def plist_content (app_name : String) : String :=
  "<?xml version=\"1.0\" encoding=\"UTF-8\"?>\n" ++
  "<!DOCTYPE plist PUBLIC \"-//Apple//DTD PLIST 1.0//EN\" \"http://www.apple.com/DTDs/PropertyList-1.0.dtd\">\n" ++
  "<plist version=\"1.0\">\n" ++
  "<dict>\n" ++
  "    <key>CFBundleExecutable</key>\n" ++
  "    <string>" ++ app_name ++ " OpenGL</string>\n" ++
  "    <key>CFBundleIdentifier</key>\n" ++
  "    <string>com." ++ strReplaceChar (strLower app_name) ' ' '.' ++ ".opengl</string>\n" ++
  "    <key>CFBundleName</key>\n" ++
  "    <string>" ++ app_name ++ " OpenGL</string>\n" ++
  "    <key>CFBundleVersion</key>\n" ++
  "    <string>1.0</string>\n" ++
  "    <key>CFBundlePackageType</key>\n" ++
  "    <string>APPL</string>\n" ++
  "</dict>\n" ++
  "</plist>\n"

/-- `f"{INSTALL_DIR}/{app_name.lower().replace(' ', '_')}_opengl.sh"`. -/
def scriptPathOf (info : AppInfo) : String :=
  INSTALL_DIR ++ "/" ++ strReplaceChar (strLower info.name) ' ' '_' ++ "_opengl.sh"

/-- `f"{WRAPPER_DIR}/{app_name} OpenGL.app"`. -/
def wrapperAppPathOf (info : AppInfo) : String :=
  WRAPPER_DIR ++ "/" ++ info.name ++ " OpenGL.app"

/-- The wrapper app's executable path `Contents/MacOS/<name> OpenGL`. -/
def wrapperExecPathOf (info : AppInfo) : String :=
  wrapperAppPathOf info ++ "/Contents/MacOS/" ++ info.name ++ " OpenGL"

/-- The wrapper app's `Contents/Info.plist` path. -/
def plistPathOf (info : AppInfo) : String :=
  wrapperAppPathOf info ++ "/Contents/Info.plist"

/-- The icon source path inside the original bundle. -/
def iconPathOf (app_path : String) (info : AppInfo) : String :=
  app_path ++ "/Contents/Resources/" ++ info.name ++ ".icns"

/-- Destination of the optional icon copy (a `shutil.copy` into
`Contents/Resources/`, so the basename is preserved). -/
def iconDestOf (info : AppInfo) : String :=
  wrapperAppPathOf info ++ "/Contents/Resources/" ++ info.name ++ ".icns"

/-- `create_script_and_wrapper(app_path, app_info)`: revert any prior
in-bundle patch, write an external launcher script under `INSTALL_DIR`, and
synthesize a wrapper `.app` under `WRAPPER_DIR`. The launcher-script write
turns a `PermissionError` into `sys.exit(1)` and any other exception into
`return False`; the wrapper-executable write catches every exception as
`return False`; the `Info.plist` write is not guarded, so its failure
escapes the function as an exception. -/
def create_script_and_wrapper (env : Env) (fs : FS) (app_path : String)
    (info : AppInfo) : OpResult Bool :=
  let app_name := info.name
  let executable_path := exePath app_path info
  let script_path := scriptPathOf info
  let wrapper_app_path := wrapperAppPathOf info
  if (fs executable_path).isNone then
    ⟨.ok false, fs, ["Skipping " ++ app_name ++ ": Executable not found."], []⟩
  else
    let original_executable := sidecarPath app_path info
    let st1 : FS × List String :=
      if (fs original_executable).isSome then
        (moveFile fs original_executable executable_path,
         ["Reverting prior patch for " ++ app_name ++ "..."])
      else (fs, [])
    let fs1 := st1.1
    let out1 := st1.2 ++
      ["Creating launch script for " ++ app_name ++ " at " ++ script_path ++ "..."]
    match env.write script_path with
    | .permDenied =>
        ⟨.exit 1, fs1,
          out1 ++ ["Permission denied. Please run with sudo: sudo python3 <argv0>"], []⟩
    | .otherErr =>
        ⟨.ok false, fs1,
          out1 ++ ["Error creating launch script for " ++ app_name ++ ": <error>"], []⟩
    | .ok =>
        let fs2 := writeFile fs1 script_path
          (launch_script app_name info.flags executable_path)
        let out2 := out1 ++ ["Launch script created for " ++ app_name ++ "."]
        let wrapper_executable := wrapperExecPathOf info
        match env.write wrapper_executable with
        | .ok =>
            let fs3 := writeFile fs2 wrapper_executable ("#!/bin/bash\n" ++ script_path ++ "\n")
            match env.write (plistPathOf info) with
            | .ok =>
                let fs4 := writeFile fs3 (plistPathOf info) (plist_content app_name)
                let icon_path := iconPathOf app_path info
                let fs5 :=
                  if (fs4 icon_path).isSome then copyFile fs4 icon_path (iconDestOf info)
                  else fs4
                ⟨.ok true, fs5,
                  out2 ++ ["Created wrapper app for " ++ app_name ++ " at " ++
                           wrapper_app_path ++ "."], []⟩
            | _ => ⟨.raised, fs3, out2, []⟩
        | _ =>
            ⟨.ok false, fs2,
              out2 ++ ["Error creating wrapper executable for " ++ app_name ++ ": <error>"], []⟩

/-! ## Orchestrator (the loop body and loop of `main`, lines 232–245) -/

/-- One iteration of `main`'s loop over `APPS_TO_PATCH`: dispatch on
`app_info.get("method", "patch")` and print the per-app outcome line. A
method tag other than `"patch"` or `"script"` matches no branch: nothing
happens for that app. -/
def processApp (env : Env) (fs : FS) (app : String × AppInfo) : OpResult Unit :=
  let method := app.2.method.getD "patch"
  if method = "patch" then
    let r := patch_in_bundle env fs app.1 app.2
    match r.res with
    | .ok true =>
        ⟨.ok (), r.fs,
          r.out ++ [app.2.name ++ " patched successfully (in-bundle). Launch normally."],
          r.cmds⟩
    | .ok false =>
        ⟨.ok (), r.fs, r.out ++ ["Fallback: Could not patch " ++ app.2.name ++ " in-bundle."],
          r.cmds⟩
    | .exit c => ⟨.exit c, r.fs, r.out, r.cmds⟩
    | .raised => ⟨.raised, r.fs, r.out, r.cmds⟩
  else if method = "script" then
    let r := create_script_and_wrapper env fs app.1 app.2
    match r.res with
    | .ok true =>
        ⟨.ok (), r.fs,
          r.out ++ [app.2.name ++ " set up successfully (external script). Use " ++
                    "~/Applications/" ++ app.2.name ++ " OpenGL.app."],
          r.cmds⟩
    | .ok false =>
        ⟨.ok (), r.fs, r.out ++ ["Failed to set up " ++ app.2.name ++ " with external script."],
          r.cmds⟩
    | .exit c => ⟨.exit c, r.fs, r.out, r.cmds⟩
    | .raised => ⟨.raised, r.fs, r.out, r.cmds⟩
  else
    ⟨.ok (), fs, [], []⟩

/-- `main`'s loop: process the apps in order, stopping only when an
iteration ends in `sys.exit` or an uncaught exception. Each iteration is
paired with its own `Env`. -/
def runApps : List ((String × AppInfo) × Env) → FS → OpResult Unit
  | [], fs => ⟨.ok (), fs, [], []⟩
  | (app, env) :: rest, fs =>
    let r := processApp env fs app
    match r.res with
    | .ok _ =>
        let r2 := runApps rest r.fs
        ⟨r2.res, r2.fs, r.out ++ r2.out, r.cmds ++ r2.cmds⟩
    | .exit c => ⟨.exit c, r.fs, r.out, r.cmds⟩
    | .raised => ⟨.raised, r.fs, r.out, r.cmds⟩

/-! ## Pointwise evaluation lemmas for the filesystem operations -/

@[simp] theorem writeFile_same (fs : FS) (p c : String) : writeFile fs p c p = some c := by
  simp [writeFile]

theorem writeFile_ne (fs : FS) {p q : String} (c : String) (h : q ≠ p) :
    writeFile fs p c q = fs q := by
  simp [writeFile, h]

@[simp] theorem removeFile_same (fs : FS) (p : String) : removeFile fs p p = none := by
  simp [removeFile]

theorem removeFile_ne (fs : FS) {p q : String} (h : q ≠ p) : removeFile fs p q = fs q := by
  simp [removeFile, h]

theorem moveFile_src (fs : FS) (src dst : String) :
    moveFile fs src dst src = none := by
  simp [moveFile, removeFile]

theorem moveFile_dst (fs : FS) {src dst : String} (h : dst ≠ src) :
    moveFile fs src dst dst = some ((fs src).getD "") := by
  simp [moveFile, removeFile, writeFile, h]

theorem moveFile_other (fs : FS) {src dst q : String} (h1 : q ≠ src) (h2 : q ≠ dst) :
    moveFile fs src dst q = fs q := by
  simp [moveFile, removeFile, writeFile, h1, h2]

theorem copyFile_dst (fs : FS) (src dst : String) :
    copyFile fs src dst dst = some ((fs src).getD "") := by
  simp [copyFile]

theorem copyFile_other (fs : FS) {src dst q : String} (h : q ≠ dst) :
    copyFile fs src dst q = fs q := by
  simp [copyFile, writeFile, h]

/-- The sidecar path is never the executable path (it is five characters
longer). -/
theorem sidecarPath_ne_exePath (ap : String) (info : AppInfo) :
    sidecarPath ap info ≠ exePath ap info := by
  intro h
  have hlen := congrArg String.length h
  have h5 : (".orig" : String).length = 5 := rfl
  rw [sidecarPath, String.length_append, h5] at hlen
  omega

theorem exePath_ne_sidecarPath (ap : String) (info : AppInfo) :
    exePath ap info ≠ sidecarPath ap info :=
  (sidecarPath_ne_exePath ap info).symm

/-! ## Characterization of `patch_in_bundle` -/

/-- First patch of an unpatched app when the wrapper write succeeds:
the result is `ok codesign`; a backup of the original is created; on signing
success the sidecar holds the original and the executable the wrapper, on
signing failure the original is restored and no sidecar remains; no other
path changes. -/
theorem patch_first_run (env : Env) (fs : FS) (ap : String) (info : AppInfo) (c : String)
    (hexe : fs (exePath ap info) = some c)
    (hside : fs (sidecarPath ap info) = none)
    (hw : env.write (exePath ap info) = .ok)
    (hb1 : backupPathOf (exePath ap info) env.timestamp ≠ exePath ap info)
    (hb2 : backupPathOf (exePath ap info) env.timestamp ≠ sidecarPath ap info) :
    (patch_in_bundle env fs ap info).res = .ok env.codesign ∧
    (patch_in_bundle env fs ap info).fs (backupPathOf (exePath ap info) env.timestamp)
      = some c ∧
    (patch_in_bundle env fs ap info).fs (sidecarPath ap info)
      = (if env.codesign then some c else none) ∧
    (patch_in_bundle env fs ap info).fs (exePath ap info)
      = (if env.codesign then
          some (wrapper_script info.name info.flags (sidecarPath ap info)) else some c) ∧
    (∀ p, p ≠ exePath ap info → p ≠ sidecarPath ap info →
      p ≠ backupPathOf (exePath ap info) env.timestamp →
      (patch_in_bundle env fs ap info).fs p = fs p) := by
  have hes := exePath_ne_sidecarPath ap info
  have hse := sidecarPath_ne_exePath ap info
  have hb1s := hb1.symm
  have hb2s := hb2.symm
  cases hc : env.codesign <;> cases hx : env.xattr
  all_goals refine ⟨?_, ?_, ?_, ?_, ?_⟩
  all_goals first
    | (intro p hp1 hp2 hp3
       simp [patch_in_bundle, backup_file, patch_write_and_sign, resign_app,
         writeFile, removeFile, moveFile, copyFile,
         hexe, hside, hw, hc, hx, hb1, hb2, hb1s, hb2s, hes, hse,
         hp1, hp2, hp3, Ne.symm hp1, Ne.symm hp2, Ne.symm hp3])
    | simp [patch_in_bundle, backup_file, patch_write_and_sign, resign_app,
        writeFile, removeFile, moveFile, copyFile,
        hexe, hside, hw, hc, hx, hb1, hb2, hb1s, hb2s, hes, hse]

/-- Re-run of `patch_in_bundle` on an already-patched app (sidecar present)
when the wrapper write succeeds: no backup is taken; on signing success only
the executable path changes (the wrapper is rewritten), on signing failure
the sidecar is moved back over the executable; every other path is
untouched. -/
theorem patch_rerun (env : Env) (fs : FS) (ap : String) (info : AppInfo) (w o : String)
    (hexe : fs (exePath ap info) = some w)
    (hside : fs (sidecarPath ap info) = some o)
    (hw : env.write (exePath ap info) = .ok) :
    (patch_in_bundle env fs ap info).res = .ok env.codesign ∧
    (patch_in_bundle env fs ap info).fs (sidecarPath ap info)
      = (if env.codesign then some o else none) ∧
    (patch_in_bundle env fs ap info).fs (exePath ap info)
      = (if env.codesign then
          some (wrapper_script info.name info.flags (sidecarPath ap info)) else some o) ∧
    (∀ p, p ≠ exePath ap info → p ≠ sidecarPath ap info →
      (patch_in_bundle env fs ap info).fs p = fs p) := by
  have hes := exePath_ne_sidecarPath ap info
  have hse := sidecarPath_ne_exePath ap info
  cases hc : env.codesign <;> cases hx : env.xattr
  all_goals refine ⟨?_, ?_, ?_, ?_⟩
  all_goals first
    | (intro p hp1 hp2
       simp [patch_in_bundle, backup_file, patch_write_and_sign, resign_app,
         writeFile, removeFile, moveFile, copyFile,
         hexe, hside, hw, hc, hx, hes, hse, hp1, hp2, Ne.symm hp1, Ne.symm hp2])
    | simp [patch_in_bundle, backup_file, patch_write_and_sign, resign_app,
        writeFile, removeFile, moveFile, copyFile,
        hexe, hside, hw, hc, hx, hes, hse]

/-- `patch_in_bundle` on an existing executable when the wrapper write hits a
`PermissionError`: the whole run is aborted with `sys.exit(1)`. -/
theorem patch_permDenied (env : Env) (fs : FS) (ap : String) (info : AppInfo)
    (hexe : (fs (exePath ap info)).isSome)
    (hw : env.write (exePath ap info) = .permDenied) :
    (patch_in_bundle env fs ap info).res = .exit 1 := by
  rcases Option.isSome_iff_exists.mp hexe with ⟨c, hc⟩
  by_cases hside : (fs (sidecarPath ap info)).isNone <;>
    simp [patch_in_bundle, backup_file, patch_write_and_sign, hc, hside, hw]

/-- First patch attempt (no sidecar) on an existing executable when the
wrapper write fails: the executable has already been moved to the sidecar,
so the function returns `False` (or exits) leaving the sidecar present, the
executable absent, the backup created, and everything else untouched. -/
theorem patch_first_writeFail (env : Env) (fs : FS) (ap : String) (info : AppInfo)
    (c : String)
    (hexe : fs (exePath ap info) = some c)
    (hside : fs (sidecarPath ap info) = none)
    (hw : env.write (exePath ap info) ≠ .ok)
    (hb1 : backupPathOf (exePath ap info) env.timestamp ≠ exePath ap info)
    (hb2 : backupPathOf (exePath ap info) env.timestamp ≠ sidecarPath ap info) :
    (patch_in_bundle env fs ap info).fs (sidecarPath ap info) = some c ∧
    (patch_in_bundle env fs ap info).fs (exePath ap info) = none ∧
    (patch_in_bundle env fs ap info).fs (backupPathOf (exePath ap info) env.timestamp)
      = some c ∧
    (∀ p, p ≠ exePath ap info → p ≠ sidecarPath ap info →
      p ≠ backupPathOf (exePath ap info) env.timestamp →
      (patch_in_bundle env fs ap info).fs p = fs p) := by
  have hes := exePath_ne_sidecarPath ap info
  have hse := sidecarPath_ne_exePath ap info
  have hb1s := hb1.symm
  have hb2s := hb2.symm
  cases hwc : env.write (exePath ap info)
  · exact absurd hwc hw
  all_goals refine ⟨?_, ?_, ?_, ?_⟩
  all_goals first
    | (intro p hp1 hp2 hp3
       simp [patch_in_bundle, backup_file, patch_write_and_sign,
         writeFile, removeFile, moveFile, copyFile,
         hexe, hside, hwc, hb1, hb2, hb1s, hb2s, hes, hse,
         hp1, hp2, hp3, Ne.symm hp1, Ne.symm hp2, Ne.symm hp3])
    | simp [patch_in_bundle, backup_file, patch_write_and_sign,
        writeFile, removeFile, moveFile, copyFile,
        hexe, hside, hwc, hb1, hb2, hb1s, hb2s, hes, hse]

/-- Re-run attempt (sidecar present) when the wrapper write fails: nothing
on the filesystem changes at all. -/
theorem patch_rerun_writeFail (env : Env) (fs : FS) (ap : String) (info : AppInfo)
    (hexe : (fs (exePath ap info)).isSome)
    (hside : (fs (sidecarPath ap info)).isSome)
    (hw : env.write (exePath ap info) ≠ .ok) :
    (patch_in_bundle env fs ap info).fs = fs := by
  rcases Option.isSome_iff_exists.mp hexe with ⟨c, hc⟩
  rcases Option.isSome_iff_exists.mp hside with ⟨o, ho⟩
  cases hwc : env.write (exePath ap info)
  · exact absurd hwc hw
  all_goals simp [patch_in_bundle, backup_file, patch_write_and_sign, hc, ho, hwc]

/-- `patch_in_bundle` on a missing executable: report failure, change
nothing, invoke nothing. -/
theorem patch_missing (env : Env) (fs : FS) (ap : String) (info : AppInfo)
    (hexe : fs (exePath ap info) = none) :
    (patch_in_bundle env fs ap info).res = .ok false ∧
    (patch_in_bundle env fs ap info).fs = fs ∧
    (patch_in_bundle env fs ap info).cmds = [] := by
  simp [patch_in_bundle, hexe]

/-! ## Characterization of `create_script_and_wrapper` -/

/-- `create_script_and_wrapper` on a missing executable: report failure,
change nothing, invoke nothing. -/
theorem script_missing (env : Env) (fs : FS) (ap : String) (info : AppInfo)
    (hexe : fs (exePath ap info) = none) :
    (create_script_and_wrapper env fs ap info).res = .ok false ∧
    (create_script_and_wrapper env fs ap info).fs = fs ∧
    (create_script_and_wrapper env fs ap info).cmds = [] := by
  simp [create_script_and_wrapper, hexe]

/-- `create_script_and_wrapper` never invokes an external command (in
particular it never signs anything). -/
theorem script_cmds (env : Env) (fs : FS) (ap : String) (info : AppInfo) :
    (create_script_and_wrapper env fs ap info).cmds = [] := by
  cases hexe : fs (exePath ap info) <;>
    cases hside : fs (sidecarPath ap info) <;>
    cases hws : env.write (scriptPathOf info) <;>
    cases hww : env.write (wrapperExecPathOf info) <;>
    cases hwp : env.write (plistPathOf info) <;>
  simp [create_script_and_wrapper, hexe, hside, hws, hww, hwp]

/-- With no sidecar present, `create_script_and_wrapper` leaves the bundle
executable untouched and still no sidecar, whatever the write outcomes. -/
theorem script_exe_fresh (env : Env) (fs : FS) (ap : String) (info : AppInfo) (c : String)
    (hexe : fs (exePath ap info) = some c)
    (hside : fs (sidecarPath ap info) = none)
    (h1 : scriptPathOf info ≠ exePath ap info)
    (h2 : scriptPathOf info ≠ sidecarPath ap info)
    (h3 : wrapperExecPathOf info ≠ exePath ap info)
    (h4 : wrapperExecPathOf info ≠ sidecarPath ap info)
    (h5 : plistPathOf info ≠ exePath ap info)
    (h6 : plistPathOf info ≠ sidecarPath ap info)
    (h7 : iconDestOf info ≠ exePath ap info)
    (h8 : iconDestOf info ≠ sidecarPath ap info) :
    (create_script_and_wrapper env fs ap info).fs (exePath ap info) = some c ∧
    (create_script_and_wrapper env fs ap info).fs (sidecarPath ap info) = none := by
  have hes := exePath_ne_sidecarPath ap info
  have hse := sidecarPath_ne_exePath ap info
  cases hws : env.write (scriptPathOf info) <;>
    cases hww : env.write (wrapperExecPathOf info) <;>
    cases hwp : env.write (plistPathOf info) <;>
  · constructor <;>
    simp [create_script_and_wrapper, writeFile, removeFile, moveFile, copyFile,
      ite_apply, hexe, hside, hws, hww, hwp, hes, hse,
      Ne.symm h1, Ne.symm h2, Ne.symm h3, Ne.symm h4,
      Ne.symm h5, Ne.symm h6, Ne.symm h7, Ne.symm h8]

/-- With a sidecar present, `create_script_and_wrapper` first moves it back
over the bundle executable (reverting the prior in-bundle patch), whatever
the write outcomes. -/
theorem script_exe_restore (env : Env) (fs : FS) (ap : String) (info : AppInfo)
    (c o : String)
    (hexe : fs (exePath ap info) = some c)
    (hside : fs (sidecarPath ap info) = some o)
    (h1 : scriptPathOf info ≠ exePath ap info)
    (h2 : scriptPathOf info ≠ sidecarPath ap info)
    (h3 : wrapperExecPathOf info ≠ exePath ap info)
    (h4 : wrapperExecPathOf info ≠ sidecarPath ap info)
    (h5 : plistPathOf info ≠ exePath ap info)
    (h6 : plistPathOf info ≠ sidecarPath ap info)
    (h7 : iconDestOf info ≠ exePath ap info)
    (h8 : iconDestOf info ≠ sidecarPath ap info) :
    (create_script_and_wrapper env fs ap info).fs (exePath ap info) = some o ∧
    (create_script_and_wrapper env fs ap info).fs (sidecarPath ap info) = none := by
  have hes := exePath_ne_sidecarPath ap info
  have hse := sidecarPath_ne_exePath ap info
  cases hws : env.write (scriptPathOf info) <;>
    cases hww : env.write (wrapperExecPathOf info) <;>
    cases hwp : env.write (plistPathOf info) <;>
  · constructor <;>
    simp [create_script_and_wrapper, writeFile, removeFile, moveFile, copyFile,
      ite_apply, hexe, hside, hws, hww, hwp, hes, hse,
      Ne.symm h1, Ne.symm h2, Ne.symm h3, Ne.symm h4,
      Ne.symm h5, Ne.symm h6, Ne.symm h7, Ne.symm h8]

/-- Frame condition for `create_script_and_wrapper`: apart from the bundle
executable, the sidecar, and the four generated artifact paths, no path
changes. -/
theorem script_frame (env : Env) (fs : FS) (ap : String) (info : AppInfo)
    (p : String)
    (hp1 : p ≠ exePath ap info) (hp2 : p ≠ sidecarPath ap info)
    (hp3 : p ≠ scriptPathOf info) (hp4 : p ≠ wrapperExecPathOf info)
    (hp5 : p ≠ plistPathOf info) (hp6 : p ≠ iconDestOf info) :
    (create_script_and_wrapper env fs ap info).fs p = fs p := by
  cases hexe : fs (exePath ap info) <;>
    cases hside : fs (sidecarPath ap info) <;>
    cases hws : env.write (scriptPathOf info) <;>
    cases hww : env.write (wrapperExecPathOf info) <;>
    cases hwp : env.write (plistPathOf info) <;>
  simp [create_script_and_wrapper, writeFile, removeFile, moveFile, copyFile,
    ite_apply, hexe, hside, hws, hww, hwp, hp1, hp2, hp3, hp4, hp5, hp6]

/-- A write never deletes a file. -/
theorem isSome_writeFile (fs : FS) (q c p : String) (h : (fs p).isSome) :
    (writeFile fs q c p).isSome := by
  by_cases hpq : p = q <;> simp [writeFile, hpq, h]

/-- A move deletes only its source. -/
theorem isSome_moveFile (fs : FS) (src dst p : String) (hp : p ≠ src)
    (h : (fs p).isSome) : (moveFile fs src dst p).isSome := by
  by_cases hpd : p = dst
  · subst hpd; simp [moveFile, removeFile, writeFile, hp]
  · simp [moveFile, removeFile, writeFile, hp, hpd, h]

/-- `create_script_and_wrapper` never deletes any file other than the
sidecar (which the revert step moves away). -/
theorem script_no_delete (env : Env) (fs : FS) (ap : String) (info : AppInfo)
    (p : String)
    (hp : p ≠ sidecarPath ap info) (hsp : (fs p).isSome) :
    ((create_script_and_wrapper env fs ap info).fs p).isSome := by
  cases hexe : fs (exePath ap info) <;>
    cases hside : fs (sidecarPath ap info) <;>
    cases hws : env.write (scriptPathOf info) <;>
    cases hww : env.write (wrapperExecPathOf info) <;>
    cases hwp : env.write (plistPathOf info)
  all_goals
    simp only [create_script_and_wrapper, copyFile, ite_apply, hexe, hside, hws, hww, hwp,
      Option.isNone_none, Option.isNone_some, Option.isSome_some, Option.isSome_none,
      Bool.true_eq_false, Bool.false_eq_true, if_true, if_false, ite_true, ite_false]
  all_goals try split_ifs
  all_goals first
    | exact hsp
    | ((repeat' apply isSome_writeFile) <;>
       first
         | exact hsp
         | exact isSome_moveFile _ _ _ _ hp hsp)

/-- `patch_in_bundle` never deletes any file other than the executable and
the sidecar (the two ends of its moves). -/
theorem patch_no_delete (env : Env) (fs : FS) (ap : String) (info : AppInfo)
    (p : String)
    (hp1 : p ≠ exePath ap info) (hp2 : p ≠ sidecarPath ap info)
    (hsp : (fs p).isSome) :
    ((patch_in_bundle env fs ap info).fs p).isSome := by
  cases hexe : fs (exePath ap info) <;>
    cases hside : fs (sidecarPath ap info) <;>
    cases hww : env.write (exePath ap info) <;>
    cases hc : env.codesign <;>
    cases hx : env.xattr
  all_goals
    simp only [patch_in_bundle, backup_file, patch_write_and_sign, resign_app, copyFile,
      hexe, hside, hww, hc, hx,
      Option.isNone_none, Option.isNone_some, Option.isSome_some, Option.isSome_none,
      Bool.true_eq_false, Bool.false_eq_true, if_true, if_false, ite_true, ite_false]
  all_goals repeat' first
    | exact hsp
    | apply isSome_writeFile
    | exact isSome_moveFile _ _ _ _ hp1 hsp
    | exact isSome_moveFile _ _ _ _ hp2 hsp
    | apply isSome_moveFile _ _ _ _ hp1
    | apply isSome_moveFile _ _ _ _ hp2

/-! ## The backup path is always distinct from the executable and sidecar -/

/-- The backup path is at least 16 characters longer than the path it backs
up, whatever the timestamp. -/
theorem backupPathOf_long (fp ts : String) :
    fp.length + 16 ≤ (backupPathOf fp ts).length := by
  have h := congrArg List.length
    (List.takeWhile_append_dropWhile (p := fun c => decide (c ≠ '/')) (l := fp.data.reverse))
  rw [List.length_append, List.length_reverse] at h
  have h1 : (basename fp).length = (fp.data.reverse.takeWhile fun c => c ≠ '/').length := by
    simp [basename, String.length]
  have h2 : (dirname fp).length
      = (fp.data.reverse.dropWhile fun c => c ≠ '/').length - 1 := by
    simp [dirname, String.length]
  have hb : (backupPathOf fp ts).length
      = (dirname fp).length + 8 + 1 + (basename fp).length + 8 + ts.length := by
    simp [backupPathOf, String.length_append]
    have e1 : ("/Backups" : String).length = 8 := rfl
    have e2 : ("/" : String).length = 1 := rfl
    have e3 : (".backup_" : String).length = 8 := rfl
    omega
  have hfp : fp.length = fp.data.length := rfl
  omega

theorem backupPath_ne_exePath (ap : String) (info : AppInfo) (ts : String) :
    backupPathOf (exePath ap info) ts ≠ exePath ap info := by
  intro h
  have := backupPathOf_long (exePath ap info) ts
  rw [h] at this
  omega

theorem backupPath_ne_sidecarPath (ap : String) (info : AppInfo) (ts : String) :
    backupPathOf (exePath ap info) ts ≠ sidecarPath ap info := by
  intro h
  have hlong := backupPathOf_long (exePath ap info) ts
  have hlen := congrArg String.length h
  have h5 : (".orig" : String).length = 5 := rfl
  rw [sidecarPath, String.length_append, h5] at hlen
  omega

/-! ## Claim theorems -/

/-- C8: for every configured app whose resolved executable path does not
exist, both strategies report failure without touching the filesystem or
invoking any external command, and the orchestrator loop goes on to process
the remaining configured apps on the unchanged filesystem. -/
theorem C8_missing_executable_skips_and_continues
    (env : Env) (fs : FS) (ap : String) (info : AppInfo)
    (hexe : fs (exePath ap info) = none)
    (rest : List ((String × AppInfo) × Env)) :
    (patch_in_bundle env fs ap info).res = .ok false ∧
    (patch_in_bundle env fs ap info).fs = fs ∧
    (patch_in_bundle env fs ap info).cmds = [] ∧
    (create_script_and_wrapper env fs ap info).res = .ok false ∧
    (create_script_and_wrapper env fs ap info).fs = fs ∧
    (create_script_and_wrapper env fs ap info).cmds = [] ∧
    (runApps (((ap, info), env) :: rest) fs).res = (runApps rest fs).res ∧
    (runApps (((ap, info), env) :: rest) fs).fs = (runApps rest fs).fs ∧
    (runApps (((ap, info), env) :: rest) fs).cmds = (runApps rest fs).cmds := by
  obtain ⟨hr1, hf1, hc1⟩ := patch_missing env fs ap info hexe
  obtain ⟨hr2, hf2, hc2⟩ := script_missing env fs ap info hexe
  refine ⟨hr1, hf1, hc1, hr2, hf2, hc2, ?_⟩
  by_cases hm1 : info.method.getD "patch" = "patch"
  · simp [runApps, processApp, hm1, hr1, hf1, hc1]
  · by_cases hm2 : info.method.getD "patch" = "script"
    · simp [runApps, processApp, hm1, hm2, hr2, hf2, hc2]
    · simp [runApps, processApp, hm1, hm2]

/-- Witness for C8: the Chrome entry on an empty filesystem. -/
theorem C8_missing_executable_skips_and_continues_witness :
    (patch_in_bundle ⟨fun _ => .ok, true, true, "T"⟩ (fun _ => none)
      "/Applications/Google Chrome.app"
      ⟨"Google Chrome", ["--use-gl=desktop"], "Contents/MacOS/Google Chrome", some "patch"⟩).res
      = .ok false ∧
    (runApps [(("/Applications/Google Chrome.app",
      ⟨"Google Chrome", ["--use-gl=desktop"], "Contents/MacOS/Google Chrome", some "patch"⟩),
      ⟨fun _ => .ok, true, true, "T"⟩)] (fun _ => none)).res = .ok () :=
  ⟨(C8_missing_executable_skips_and_continues ⟨fun _ => .ok, true, true, "T"⟩ (fun _ => none)
      "/Applications/Google Chrome.app"
      ⟨"Google Chrome", ["--use-gl=desktop"], "Contents/MacOS/Google Chrome", some "patch"⟩
      rfl []).1,
   by
    have h := C8_missing_executable_skips_and_continues ⟨fun _ => .ok, true, true, "T"⟩
      (fun _ => none) "/Applications/Google Chrome.app"
      ⟨"Google Chrome", ["--use-gl=desktop"], "Contents/MacOS/Google Chrome", some "patch"⟩
      rfl []
    rw [h.2.2.2.2.2.2.1]
    rfl⟩

/-- C10: a configured app whose method tag is present but neither `"patch"`
nor `"script"` matches no branch of the dispatch: the loop body changes
nothing, prints nothing, invokes nothing, and the run continues with the
remaining apps exactly as if the app were absent. -/
theorem C10_unknown_method_is_silently_skipped
    (env : Env) (fs : FS) (ap : String) (info : AppInfo) (m : String)
    (hm : info.method = some m) (h1 : m ≠ "patch") (h2 : m ≠ "script")
    (rest : List ((String × AppInfo) × Env)) :
    processApp env fs (ap, info) = ⟨.ok (), fs, [], []⟩ ∧
    (runApps (((ap, info), env) :: rest) fs).res = (runApps rest fs).res ∧
    (runApps (((ap, info), env) :: rest) fs).fs = (runApps rest fs).fs ∧
    (runApps (((ap, info), env) :: rest) fs).out = (runApps rest fs).out ∧
    (runApps (((ap, info), env) :: rest) fs).cmds = (runApps rest fs).cmds := by
  have hg : info.method.getD "patch" = m := by simp [hm]
  have hp : processApp env fs (ap, info) = ⟨.ok (), fs, [], []⟩ := by
    simp [processApp, hg, h1, h2]
  exact ⟨hp, by simp [runApps, hp], by simp [runApps, hp], by simp [runApps, hp],
    by simp [runApps, hp]⟩

/-- Witness for C10: a hypothetical entry with method tag `"wrapper"`. -/
theorem C10_unknown_method_is_silently_skipped_witness :
    processApp ⟨fun _ => .ok, true, true, "T"⟩
      (fun _ => some "X") ("/Applications/Foo.app",
        ⟨"Foo", ["--use-gl=desktop"], "Contents/MacOS/Foo", some "wrapper"⟩)
      = ⟨.ok (), (fun _ => some "X"), [], []⟩ :=
  (C10_unknown_method_is_silently_skipped ⟨fun _ => .ok, true, true, "T"⟩
    (fun _ => some "X") "/Applications/Foo.app"
    ⟨"Foo", ["--use-gl=desktop"], "Contents/MacOS/Foo", some "wrapper"⟩
    "wrapper" rfl (by decide) (by decide) []).1

/-- C4: for every configured app with the external-script strategy whose
executable exists, `create_script_and_wrapper` first restores any existing
sidecar to the executable path, never invokes any external command (so
nothing is re-signed), and changes no file inside the original bundle other
than the executable/sidecar pair involved in that restore. -/
theorem C4_external_script_preserves_bundle
    (ap : String) (info : AppInfo)
    (hmem : (ap, info) ∈ APPS_TO_PATCH)
    (hm : info.method.getD "patch" = "script")
    (env : Env) (fs : FS) (c : String)
    (hexe : fs (exePath ap info) = some c) :
    ((fs (sidecarPath ap info)).isNone →
      (create_script_and_wrapper env fs ap info).fs (exePath ap info) = some c ∧
      (create_script_and_wrapper env fs ap info).fs (sidecarPath ap info) = none) ∧
    (∀ o, fs (sidecarPath ap info) = some o →
      (create_script_and_wrapper env fs ap info).fs (exePath ap info) = some o ∧
      (create_script_and_wrapper env fs ap info).fs (sidecarPath ap info) = none) ∧
    (create_script_and_wrapper env fs ap info).cmds = [] ∧
    (∀ p, insideDir ap p = true → p ≠ exePath ap info → p ≠ sidecarPath ap info →
      (create_script_and_wrapper env fs ap info).fs p = fs p) := by
  simp only [APPS_TO_PATCH, List.mem_cons, List.mem_singleton, Prod.mk.injEq,
    List.not_mem_nil, or_false] at hmem
  rcases hmem with ⟨rfl, rfl⟩|⟨rfl, rfl⟩|⟨rfl, rfl⟩|⟨rfl, rfl⟩|⟨rfl, rfl⟩|⟨rfl, rfl⟩|⟨rfl, rfl⟩ <;>
    try simp at hm
  refine ⟨?_, ?_, script_cmds env fs _ _, ?_⟩
  · intro hn
    exact script_exe_fresh env fs _ _ c hexe (Option.isNone_iff_eq_none.mp hn)
      (by decide) (by decide) (by decide) (by decide)
      (by decide) (by decide) (by decide) (by decide)
  · intro o hside
    exact script_exe_restore env fs _ _ c o hexe hside
      (by decide) (by decide) (by decide) (by decide)
      (by decide) (by decide) (by decide) (by decide)
  · intro p hin hpe hps
    refine script_frame env fs _ _ p hpe hps ?_ ?_ ?_ ?_ <;>
      intro heq <;> subst heq <;> revert hin <;> decide

/-- Witness for C4: Spotify with an existing executable and a leftover
sidecar from a prior in-bundle patch; the sidecar is restored, no command
runs, and an unrelated file inside the bundle is untouched. -/
theorem C4_external_script_preserves_bundle_witness :
    (create_script_and_wrapper ⟨fun _ => .ok, true, true, "T"⟩
      (fun p => if p = "/Applications/Spotify.app/Contents/MacOS/Spotify" then some "WRAP"
        else if p = "/Applications/Spotify.app/Contents/MacOS/Spotify.orig" then some "SPOTORIG"
        else if p = "/Applications/Spotify.app/Contents/Resources/a.dat" then some "DATA"
        else none)
      "/Applications/Spotify.app"
      ⟨"Spotify", ["--use-gl=desktop"], "Contents/MacOS/Spotify", some "script"⟩).fs
      "/Applications/Spotify.app/Contents/MacOS/Spotify" = some "SPOTORIG" ∧
    (create_script_and_wrapper ⟨fun _ => .ok, true, true, "T"⟩
      (fun p => if p = "/Applications/Spotify.app/Contents/MacOS/Spotify" then some "WRAP"
        else if p = "/Applications/Spotify.app/Contents/MacOS/Spotify.orig" then some "SPOTORIG"
        else if p = "/Applications/Spotify.app/Contents/Resources/a.dat" then some "DATA"
        else none)
      "/Applications/Spotify.app"
      ⟨"Spotify", ["--use-gl=desktop"], "Contents/MacOS/Spotify", some "script"⟩).cmds = [] ∧
    (create_script_and_wrapper ⟨fun _ => .ok, true, true, "T"⟩
      (fun p => if p = "/Applications/Spotify.app/Contents/MacOS/Spotify" then some "WRAP"
        else if p = "/Applications/Spotify.app/Contents/MacOS/Spotify.orig" then some "SPOTORIG"
        else if p = "/Applications/Spotify.app/Contents/Resources/a.dat" then some "DATA"
        else none)
      "/Applications/Spotify.app"
      ⟨"Spotify", ["--use-gl=desktop"], "Contents/MacOS/Spotify", some "script"⟩).fs
      "/Applications/Spotify.app/Contents/Resources/a.dat" = some "DATA" := by
  have h := C4_external_script_preserves_bundle "/Applications/Spotify.app"
    ⟨"Spotify", ["--use-gl=desktop"], "Contents/MacOS/Spotify", some "script"⟩
    (by decide) (by decide) ⟨fun _ => .ok, true, true, "T"⟩
    (fun p => if p = "/Applications/Spotify.app/Contents/MacOS/Spotify" then some "WRAP"
      else if p = "/Applications/Spotify.app/Contents/MacOS/Spotify.orig" then some "SPOTORIG"
      else if p = "/Applications/Spotify.app/Contents/Resources/a.dat" then some "DATA"
      else none)
    "WRAP" (by decide)
  refine ⟨(h.2.1 "SPOTORIG" (by decide)).1, h.2.2.1, ?_⟩
  rw [h.2.2.2 "/Applications/Spotify.app/Contents/Resources/a.dat"
    (by decide) (by decide) (by decide)]
  decide

/-- The spec-side plist template: an XML property list declaring the given
`CFBundleExecutable`, `CFBundleIdentifier`, `CFBundleName`, `CFBundleVersion`
and `CFBundlePackageType` values. Stated separately from `plist_content`
(which is the source's f-string) so that the claimed field values can be
compared against the generated text. -/
def plistRender (exeName ident bundleName version pkgType : String) : String :=
  "<?xml version=\"1.0\" encoding=\"UTF-8\"?>\n" ++
  "<!DOCTYPE plist PUBLIC \"-//Apple//DTD PLIST 1.0//EN\" \"http://www.apple.com/DTDs/PropertyList-1.0.dtd\">\n" ++
  "<plist version=\"1.0\">\n" ++
  "<dict>\n" ++
  "    <key>CFBundleExecutable</key>\n" ++
  "    <string>" ++ exeName ++ "</string>\n" ++
  "    <key>CFBundleIdentifier</key>\n" ++
  "    <string>" ++ ident ++ "</string>\n" ++
  "    <key>CFBundleName</key>\n" ++
  "    <string>" ++ bundleName ++ "</string>\n" ++
  "    <key>CFBundleVersion</key>\n" ++
  "    <string>" ++ version ++ "</string>\n" ++
  "    <key>CFBundlePackageType</key>\n" ++
  "    <string>" ++ pkgType ++ "</string>\n" ++
  "</dict>\n" ++
  "</plist>\n"

/-- C9: for every configured external-script app, a successful run writes an
`Info.plist` whose `CFBundleExecutable` and `CFBundleName` are the display
name followed by `" OpenGL"`, whose `CFBundleIdentifier` is `"com."` plus
the display name lower-cased with spaces replaced by dots plus `".opengl"`,
with version `"1.0"` and package type `"APPL"`; and the name `"Foo Bar"`
yields identifier `com.foo.bar.opengl` and executable `Foo Bar OpenGL`. -/
theorem C9_plist_fields
    (ap : String) (info : AppInfo)
    (hmem : (ap, info) ∈ APPS_TO_PATCH)
    (hm : info.method.getD "patch" = "script")
    (env : Env) (fs : FS)
    (hsucc : (create_script_and_wrapper env fs ap info).res = .ok true) :
    (create_script_and_wrapper env fs ap info).fs (plistPathOf info)
      = some (plistRender (info.name ++ " OpenGL")
          ("com." ++ strReplaceChar (strLower info.name) ' ' '.' ++ ".opengl")
          (info.name ++ " OpenGL") "1.0" "APPL") ∧
    "com." ++ strReplaceChar (strLower "Foo Bar") ' ' '.' ++ ".opengl"
      = "com.foo.bar.opengl" ∧
    "Foo Bar" ++ " OpenGL" = "Foo Bar OpenGL" := by
  simp only [APPS_TO_PATCH, List.mem_cons, List.mem_singleton, Prod.mk.injEq,
    List.not_mem_nil, or_false] at hmem
  rcases hmem with ⟨rfl, rfl⟩|⟨rfl, rfl⟩|⟨rfl, rfl⟩|⟨rfl, rfl⟩|⟨rfl, rfl⟩|⟨rfl, rfl⟩|⟨rfl, rfl⟩ <;>
    try simp at hm
  refine ⟨?_, by decide, by decide⟩
  cases hfe : fs (exePath "/Applications/Spotify.app"
      ⟨"Spotify", ["--use-gl=desktop"], "Contents/MacOS/Spotify", some "script"⟩) with
  | none =>
      rw [(script_missing env fs _ _ hfe).1] at hsucc
      simp at hsucc
  | some c =>
  cases hws : env.write (scriptPathOf
      ⟨"Spotify", ["--use-gl=desktop"], "Contents/MacOS/Spotify", some "script"⟩) with
  | permDenied =>
      rw [show (create_script_and_wrapper env fs "/Applications/Spotify.app"
          ⟨"Spotify", ["--use-gl=desktop"], "Contents/MacOS/Spotify", some "script"⟩).res
          = .exit 1 from by simp [create_script_and_wrapper, hfe, hws]] at hsucc
      simp at hsucc
  | otherErr =>
      rw [show (create_script_and_wrapper env fs "/Applications/Spotify.app"
          ⟨"Spotify", ["--use-gl=desktop"], "Contents/MacOS/Spotify", some "script"⟩).res
          = .ok false from by simp [create_script_and_wrapper, hfe, hws]] at hsucc
      simp at hsucc
  | ok =>
  cases hww : env.write (wrapperExecPathOf
      ⟨"Spotify", ["--use-gl=desktop"], "Contents/MacOS/Spotify", some "script"⟩) with
  | permDenied =>
      rw [show (create_script_and_wrapper env fs "/Applications/Spotify.app"
          ⟨"Spotify", ["--use-gl=desktop"], "Contents/MacOS/Spotify", some "script"⟩).res
          = .ok false from by simp [create_script_and_wrapper, hfe, hws, hww]] at hsucc
      simp at hsucc
  | otherErr =>
      rw [show (create_script_and_wrapper env fs "/Applications/Spotify.app"
          ⟨"Spotify", ["--use-gl=desktop"], "Contents/MacOS/Spotify", some "script"⟩).res
          = .ok false from by simp [create_script_and_wrapper, hfe, hws, hww]] at hsucc
      simp at hsucc
  | ok =>
  cases hwp : env.write (plistPathOf
      ⟨"Spotify", ["--use-gl=desktop"], "Contents/MacOS/Spotify", some "script"⟩) with
  | permDenied =>
      rw [show (create_script_and_wrapper env fs "/Applications/Spotify.app"
          ⟨"Spotify", ["--use-gl=desktop"], "Contents/MacOS/Spotify", some "script"⟩).res
          = .raised from by simp [create_script_and_wrapper, hfe, hws, hww, hwp]] at hsucc
      simp at hsucc
  | otherErr =>
      rw [show (create_script_and_wrapper env fs "/Applications/Spotify.app"
          ⟨"Spotify", ["--use-gl=desktop"], "Contents/MacOS/Spotify", some "script"⟩).res
          = .raised from by simp [create_script_and_wrapper, hfe, hws, hww, hwp]] at hsucc
      simp at hsucc
  | ok =>
      have npi : plistPathOf ⟨"Spotify", ["--use-gl=desktop"], "Contents/MacOS/Spotify", some "script"⟩
          ≠ iconDestOf ⟨"Spotify", ["--use-gl=desktop"], "Contents/MacOS/Spotify", some "script"⟩ := by
        decide
      have hplc : plist_content "Spotify"
          = plistRender ("Spotify" ++ " OpenGL")
              ("com." ++ strReplaceChar (strLower "Spotify") ' ' '.' ++ ".opengl")
              ("Spotify" ++ " OpenGL") "1.0" "APPL" := by decide
      cases hside : fs (sidecarPath "/Applications/Spotify.app"
          ⟨"Spotify", ["--use-gl=desktop"], "Contents/MacOS/Spotify", some "script"⟩) <;>
        simp [create_script_and_wrapper, writeFile, removeFile, moveFile, copyFile,
          ite_apply, hfe, hside, hws, hww, hwp, npi, Ne.symm npi, hplc]

/-- Witness for C9: a successful Spotify run on a filesystem holding only
the Spotify executable. -/
theorem C9_plist_fields_witness :
    (create_script_and_wrapper ⟨fun _ => .ok, true, true, "T"⟩
      (fun p => if p = "/Applications/Spotify.app/Contents/MacOS/Spotify" then some "SPOT"
        else none)
      "/Applications/Spotify.app"
      ⟨"Spotify", ["--use-gl=desktop"], "Contents/MacOS/Spotify", some "script"⟩).fs
      (plistPathOf ⟨"Spotify", ["--use-gl=desktop"], "Contents/MacOS/Spotify", some "script"⟩)
      = some (plistRender ("Spotify" ++ " OpenGL")
          ("com." ++ strReplaceChar (strLower "Spotify") ' ' '.' ++ ".opengl")
          ("Spotify" ++ " OpenGL") "1.0" "APPL") :=
  (C9_plist_fields "/Applications/Spotify.app"
    ⟨"Spotify", ["--use-gl=desktop"], "Contents/MacOS/Spotify", some "script"⟩
    (by decide) (by decide) ⟨fun _ => .ok, true, true, "T"⟩
    (fun p => if p = "/Applications/Spotify.app/Contents/MacOS/Spotify" then some "SPOT"
      else none)
    (by decide)).1

/-! ## Concrete fixtures for counterexamples and witnesses -/

def chromePath : String := "/Applications/Google Chrome.app"

def chromeInfo : AppInfo :=
  ⟨"Google Chrome", ["--use-gl=desktop"], "Contents/MacOS/Google Chrome", some "patch"⟩

/-- A filesystem holding only Chrome's original executable. -/
def fsChrome0 : FS :=
  fun p => if p = exePath chromePath chromeInfo then some "MACHO" else none

def envOk1 : Env := ⟨fun _ => .ok, true, true, "20250101_000000"⟩

def envOk2 : Env := ⟨fun _ => .ok, true, true, "20250101_000001"⟩

def envSignFail : Env := ⟨fun _ => .ok, false, true, "20250101_000002"⟩

def envWriteErr : Env := ⟨fun _ => .otherErr, true, true, "20250101_000003"⟩

/-- The filesystem after a first successful in-bundle patch of Chrome. -/
def fsChrome1 : FS := (patch_in_bundle envOk1 fsChrome0 chromePath chromeInfo).fs

/-! ## C1 -/

/-- C1 (amended: for a first patch, i.e. no sidecar yet): if
`patch_in_bundle` on a configured in-bundle app reports success, the sidecar
afterwards holds the executable's pre-run bytes and the executable path
holds the wrapper script, which starts with a bash shebang and ends with an
`exec` of the sidecar path followed by each configured flag individually
quoted in configuration order and then `"$@"`. -/
theorem C1_patch_success_installs_wrapper
    (ap : String) (info : AppInfo)
    (hmem : (ap, info) ∈ APPS_TO_PATCH)
    (hm : info.method.getD "patch" = "patch")
    (env : Env) (fs : FS) (c : String)
    (hexe : fs (exePath ap info) = some c)
    (hside : fs (sidecarPath ap info) = none)
    (hsucc : (patch_in_bundle env fs ap info).res = .ok true) :
    (patch_in_bundle env fs ap info).fs (sidecarPath ap info) = some c ∧
    (patch_in_bundle env fs ap info).fs (exePath ap info)
      = some (wrapper_script info.name info.flags (sidecarPath ap info)) ∧
    (∃ rest, wrapper_script info.name info.flags (sidecarPath ap info)
      = "#!/bin/bash\n" ++ rest) ∧
    (∃ pre, wrapper_script info.name info.flags (sidecarPath ap info)
      = pre ++ ("exec \"" ++ sidecarPath ap info ++ "\" " ++ quotedJoin info.flags
          ++ " \"$@\"\n")) := by
  have hb1 := backupPath_ne_exePath ap info env.timestamp
  have hb2 := backupPath_ne_sidecarPath ap info env.timestamp
  cases hww : env.write (exePath ap info) with
  | permDenied =>
      rw [patch_permDenied env fs ap info (by simp [hexe]) hww] at hsucc
      simp at hsucc
  | otherErr =>
      rw [show (patch_in_bundle env fs ap info).res = .ok false from by
        simp [patch_in_bundle, backup_file, patch_write_and_sign, hexe, hside, hww]] at hsucc
      simp at hsucc
  | ok =>
      obtain ⟨hres, _, hs, he, _⟩ := patch_first_run env fs ap info c hexe hside hww hb1 hb2
      rw [hres] at hsucc
      have hcs : env.codesign = true := by
        cases hcc : env.codesign <;> rw [hcc] at hsucc <;> simp at hsucc <;> rfl
      rw [hcs] at hs he
      refine ⟨by simpa using hs, by simpa using he, ⟨_, rfl⟩, ?_⟩
      refine ⟨"#!/bin/bash\n" ++ "# Launch " ++ info.name ++ " with OpenGL flags\n" ++
        "echo \"$(date): Launching " ++ info.name ++ " with flags: " ++
        joinSpace info.flags ++ "\" >> ~/Library/Logs/" ++ info.name ++ "_wrapper.log\n", ?_⟩
      apply String.ext
      simp [wrapper_script, String.data_append, List.append_assoc]

/-- Witness for C1: first patch of Chrome with everything succeeding. -/
theorem C1_patch_success_installs_wrapper_witness :
    (patch_in_bundle envOk1 fsChrome0 chromePath chromeInfo).fs
      (sidecarPath chromePath chromeInfo) = some "MACHO" ∧
    (patch_in_bundle envOk1 fsChrome0 chromePath chromeInfo).fs
      (exePath chromePath chromeInfo)
      = some (wrapper_script chromeInfo.name chromeInfo.flags
          (sidecarPath chromePath chromeInfo)) :=
  have h := C1_patch_success_installs_wrapper chromePath chromeInfo
    (by decide) (by decide) envOk1 fsChrome0 "MACHO" (by decide) (by decide) (by decide)
  ⟨h.1, h.2.1⟩

/-- Counterexample to C1 as stated: a second run on already-patched Chrome
(whose executable exists and whose patch reports success) leaves a sidecar
that is not byte-identical to the executable's pre-run content (the pre-run
content is the wrapper from the first run, the sidecar holds the original
binary). -/
theorem C1_counterexample :
    (chromePath, chromeInfo) ∈ APPS_TO_PATCH ∧
    chromeInfo.method.getD "patch" = "patch" ∧
    (fsChrome1 (exePath chromePath chromeInfo)).isSome ∧
    (patch_in_bundle envOk2 fsChrome1 chromePath chromeInfo).res = .ok true ∧
    (patch_in_bundle envOk2 fsChrome1 chromePath chromeInfo).fs
        (sidecarPath chromePath chromeInfo)
      ≠ fsChrome1 (exePath chromePath chromeInfo) := by
  refine ⟨by decide, by decide, by decide, by decide, by decide⟩

/-! ## C2 -/

/-- C2 (amended): when the signing invocation is reached (wrapper write
succeeded) and fails, `patch_in_bundle` reports failure, leaves no sidecar,
and puts the sidecar's content back at the executable path — which equals
the pre-attempt executable content exactly when the app was unpatched before
the attempt; and a quarantine-clear failure alone does not roll back: the
patch is still reported as success and the sidecar is kept. -/
theorem C2_sign_failure_rolls_back
    (env : Env) (fs : FS) (ap : String) (info : AppInfo) (c : String)
    (hexe : fs (exePath ap info) = some c)
    (hw : env.write (exePath ap info) = .ok) :
    (env.codesign = false →
      (patch_in_bundle env fs ap info).res = .ok false ∧
      (patch_in_bundle env fs ap info).fs (sidecarPath ap info) = none ∧
      (fs (sidecarPath ap info) = none →
        (patch_in_bundle env fs ap info).fs (exePath ap info) = fs (exePath ap info)) ∧
      (∀ o, fs (sidecarPath ap info) = some o →
        (patch_in_bundle env fs ap info).fs (exePath ap info) = some o)) ∧
    (env.codesign = true → env.xattr = false →
      (patch_in_bundle env fs ap info).res = .ok true ∧
      (fs (sidecarPath ap info) = none →
        (patch_in_bundle env fs ap info).fs (sidecarPath ap info) = some c) ∧
      (∀ o, fs (sidecarPath ap info) = some o →
        (patch_in_bundle env fs ap info).fs (sidecarPath ap info) = some o)) := by
  have hb1 := backupPath_ne_exePath ap info env.timestamp
  have hb2 := backupPath_ne_sidecarPath ap info env.timestamp
  constructor
  · intro hcs
    cases hside : fs (sidecarPath ap info) with
    | none =>
        obtain ⟨hres, _, hs, he, _⟩ := patch_first_run env fs ap info c hexe hside hw hb1 hb2
        rw [hcs] at hres hs he
        simp only [Bool.false_eq_true, if_false, ite_false] at hres hs he
        exact ⟨hres, hs, fun _ => by rw [he, hexe], fun o ho => by simp [hside] at ho⟩
    | some o =>
        obtain ⟨hres, hs, he, _⟩ := patch_rerun env fs ap info c o hexe hside hw
        rw [hcs] at hres hs he
        simp only [Bool.false_eq_true, if_false, ite_false] at hres hs he
        exact ⟨hres, hs, fun h => by simp [hside] at h,
          fun o' ho' => he.trans ho'⟩
  · intro hcs _
    cases hside : fs (sidecarPath ap info) with
    | none =>
        obtain ⟨hres, _, hs, _, _⟩ := patch_first_run env fs ap info c hexe hside hw hb1 hb2
        rw [hcs] at hres hs
        simp only [if_true, ite_true] at hres hs
        exact ⟨hres, fun _ => hs, fun o ho => by simp [hside] at ho⟩
    | some o =>
        obtain ⟨hres, hs, _, _⟩ := patch_rerun env fs ap info c o hexe hside hw
        rw [hcs] at hres hs
        simp only [if_true, ite_true] at hres hs
        exact ⟨hres, fun h => by simp [hside] at h,
          fun o' ho' => hs.trans ho'⟩

/-- Witness for C2: a failed signing on a fresh Chrome patch restores the
executable, and a quarantine-clear failure alone still reports success. -/
theorem C2_sign_failure_rolls_back_witness :
    ((patch_in_bundle envSignFail fsChrome0 chromePath chromeInfo).res = .ok false ∧
     (patch_in_bundle envSignFail fsChrome0 chromePath chromeInfo).fs
       (sidecarPath chromePath chromeInfo) = none ∧
     (patch_in_bundle envSignFail fsChrome0 chromePath chromeInfo).fs
       (exePath chromePath chromeInfo) = fsChrome0 (exePath chromePath chromeInfo)) ∧
    ((patch_in_bundle ⟨fun _ => .ok, true, false, "T"⟩ fsChrome0 chromePath chromeInfo).res
       = .ok true) := by
  have h1 := C2_sign_failure_rolls_back envSignFail fsChrome0 chromePath chromeInfo
    "MACHO" (by decide) (by decide)
  have h2 := C2_sign_failure_rolls_back ⟨fun _ => .ok, true, false, "T"⟩ fsChrome0
    chromePath chromeInfo "MACHO" (by decide) (by decide)
  obtain ⟨ha, hb, hc, -⟩ := h1.1 rfl
  exact ⟨⟨ha, hb, hc (by decide)⟩, (h2.2 rfl rfl).1⟩

/-- Counterexample to C2 as stated: a signing failure on the second patch
attempt of an already-patched Chrome reports failure, but the executable
afterwards is the restored original binary, not the wrapper that was at the
executable path before the attempt. -/
theorem C2_counterexample :
    envSignFail.codesign = false ∧
    (patch_in_bundle envSignFail fsChrome1 chromePath chromeInfo).res = .ok false ∧
    (patch_in_bundle envSignFail fsChrome1 chromePath chromeInfo).fs
        (exePath chromePath chromeInfo)
      ≠ fsChrome1 (exePath chromePath chromeInfo) := by
  refine ⟨by decide, by decide, by decide⟩

/-! ## C3 -/

/-- C3 (amended: when the second run reports success): re-running
`patch_in_bundle` on an already-patched app creates no second sidecar and
keeps the sidecar's content; only the executable path (the wrapper script)
changes. -/
theorem C3_rerun_idempotent
    (env : Env) (fs : FS) (ap : String) (info : AppInfo) (w o : String)
    (hexe : fs (exePath ap info) = some w)
    (hside : fs (sidecarPath ap info) = some o)
    (hsucc : (patch_in_bundle env fs ap info).res = .ok true) :
    (patch_in_bundle env fs ap info).fs (sidecarPath ap info) = some o ∧
    (patch_in_bundle env fs ap info).fs (exePath ap info)
      = some (wrapper_script info.name info.flags (sidecarPath ap info)) ∧
    (∀ p, p ≠ exePath ap info → (patch_in_bundle env fs ap info).fs p = fs p) := by
  cases hww : env.write (exePath ap info) with
  | permDenied =>
      rw [patch_permDenied env fs ap info (by simp [hexe]) hww] at hsucc
      simp at hsucc
  | otherErr =>
      rw [show (patch_in_bundle env fs ap info).res = .ok false from by
        simp [patch_in_bundle, backup_file, patch_write_and_sign, hexe, hside, hww]] at hsucc
      simp at hsucc
  | ok =>
      obtain ⟨hres, hs, he, hfr⟩ := patch_rerun env fs ap info w o hexe hside hww
      rw [hres] at hsucc
      have hcs : env.codesign = true := by
        cases hcc : env.codesign <;> rw [hcc] at hsucc <;> simp at hsucc <;> rfl
      rw [hcs] at hs he
      refine ⟨by simpa using hs, by simpa using he, ?_⟩
      intro p hp
      by_cases hps : p = sidecarPath ap info
      · subst hps; rw [hside]; simpa using hs
      · exact hfr p hp hps

/-- Witness for C3: a successful second run on the patched Chrome keeps the
sidecar and leaves an unrelated file alone. -/
theorem C3_rerun_idempotent_witness :
    (patch_in_bundle envOk2 fsChrome1 chromePath chromeInfo).fs
      (sidecarPath chromePath chromeInfo) = some "MACHO" ∧
    (patch_in_bundle envOk2 fsChrome1 chromePath chromeInfo).fs "/etc/hosts"
      = fsChrome1 "/etc/hosts" := by
  have h := C3_rerun_idempotent envOk2 fsChrome1 chromePath chromeInfo
    (wrapper_script chromeInfo.name chromeInfo.flags (sidecarPath chromePath chromeInfo))
    "MACHO" (by decide) (by decide) (by decide)
  exact ⟨h.1, h.2.2 "/etc/hosts" (by decide)⟩

/-- Counterexample to C3 as stated: if signing fails during the second run,
the sidecar is moved back over the executable, so after the second run the
sidecar no longer exists — its content does not equal its content after the
first run, and more than the wrapper script changed. -/
theorem C3_counterexample :
    (fsChrome1 (sidecarPath chromePath chromeInfo)).isSome ∧
    (patch_in_bundle envSignFail fsChrome1 chromePath chromeInfo).fs
      (sidecarPath chromePath chromeInfo) = none ∧
    (patch_in_bundle envSignFail fsChrome1 chromePath chromeInfo).fs
        (sidecarPath chromePath chromeInfo)
      ≠ fsChrome1 (sidecarPath chromePath chromeInfo) := by
  refine ⟨by decide, by decide, by decide⟩

/-! ## C6 -/

def spotifyPath : String := "/Applications/Spotify.app"

def spotifyInfo : AppInfo :=
  ⟨"Spotify", ["--use-gl=desktop"], "Contents/MacOS/Spotify", some "script"⟩

/-- Spotify and Chrome executables both installed. -/
def fsSpotChrome : FS := fun p =>
  if p = exePath spotifyPath spotifyInfo then some "SPOT"
  else if p = exePath chromePath chromeInfo then some "MACHO" else none

/-- Every write succeeds except the `Info.plist` write, which fails with a
non-permission filesystem error. -/
def envPlistErr : Env :=
  ⟨fun p => if p = plistPathOf spotifyInfo then .otherErr else .ok, true, true, "T"⟩

def envPermDenied : Env := ⟨fun _ => .permDenied, true, true, "T"⟩

/-- C6 (amended): a `PermissionError` while writing the in-bundle wrapper or
the external launcher script exits the run with status 1; any other error at
the launcher script, and any error at all at the wrapper bundle's
executable, is caught and turned into a per-app failure; but a failure of
the unguarded `Info.plist` write escapes `create_script_and_wrapper` as an
uncaught exception. -/
theorem C6_error_surfaces
    (env : Env) (fs : FS) (ap : String) (info : AppInfo) :
    ((fs (exePath ap info)).isSome → env.write (exePath ap info) = .permDenied →
      (patch_in_bundle env fs ap info).res = .exit 1) ∧
    ((fs (exePath ap info)).isSome → env.write (scriptPathOf info) = .permDenied →
      (create_script_and_wrapper env fs ap info).res = .exit 1) ∧
    ((fs (exePath ap info)).isSome → env.write (scriptPathOf info) = .otherErr →
      (create_script_and_wrapper env fs ap info).res = .ok false) ∧
    ((fs (exePath ap info)).isSome → env.write (scriptPathOf info) = .ok →
      env.write (wrapperExecPathOf info) ≠ .ok →
      (create_script_and_wrapper env fs ap info).res = .ok false) ∧
    ((fs (exePath ap info)).isSome → env.write (scriptPathOf info) = .ok →
      env.write (wrapperExecPathOf info) = .ok →
      env.write (plistPathOf info) ≠ .ok →
      (create_script_and_wrapper env fs ap info).res = .raised) := by
  refine ⟨fun hexe hw => patch_permDenied env fs ap info hexe hw, ?_, ?_, ?_, ?_⟩
  · intro hexe hw
    rcases Option.isSome_iff_exists.mp hexe with ⟨c, hc⟩
    simp [create_script_and_wrapper, hc, hw]
  · intro hexe hw
    rcases Option.isSome_iff_exists.mp hexe with ⟨c, hc⟩
    simp [create_script_and_wrapper, hc, hw]
  · intro hexe hw1 hw2
    rcases Option.isSome_iff_exists.mp hexe with ⟨c, hc⟩
    cases hww : env.write (wrapperExecPathOf info) <;>
      first
        | exact absurd hww hw2
        | simp [create_script_and_wrapper, hc, hw1, hww]
  · intro hexe hw1 hw2 hw3
    rcases Option.isSome_iff_exists.mp hexe with ⟨c, hc⟩
    cases hwp : env.write (plistPathOf info) <;>
      first
        | exact absurd hwp hw3
        | simp [create_script_and_wrapper, hc, hw1, hw2, hwp]

/-- Witness for C6: permission denial at Chrome's wrapper write exits with
status 1, and a non-permission error at Spotify's launcher write is a
per-app failure. -/
theorem C6_error_surfaces_witness :
    (patch_in_bundle envPermDenied fsChrome0 chromePath chromeInfo).res = .exit 1 ∧
    (create_script_and_wrapper envWriteErr fsSpotChrome spotifyPath spotifyInfo).res
      = .ok false :=
  ⟨(C6_error_surfaces envPermDenied fsChrome0 chromePath chromeInfo).1 (by decide) rfl,
   (C6_error_surfaces envWriteErr fsSpotChrome spotifyPath spotifyInfo).2.2.1
     (by decide) rfl⟩

/-- Counterexample to C6 as stated: a non-permission filesystem error while
writing the wrapper bundle's `Info.plist` is not caught — the operation ends
in an uncaught exception (not a per-app failure and not the permission
`exit 1`), and the orchestrator loop stops: the next configured app (Chrome,
whose executable exists) is never patched. -/
theorem C6_counterexample :
    (create_script_and_wrapper envPlistErr fsSpotChrome spotifyPath spotifyInfo).res
      = .raised ∧
    (create_script_and_wrapper envPlistErr fsSpotChrome spotifyPath spotifyInfo).res
      ≠ .ok false ∧
    (create_script_and_wrapper envPlistErr fsSpotChrome spotifyPath spotifyInfo).res
      ≠ .exit 1 ∧
    (runApps [((spotifyPath, spotifyInfo), envPlistErr),
              ((chromePath, chromeInfo), envOk1)] fsSpotChrome).res = .raised ∧
    (runApps [((spotifyPath, spotifyInfo), envPlistErr),
              ((chromePath, chromeInfo), envOk1)] fsSpotChrome).fs
      (sidecarPath chromePath chromeInfo) = none := by
  refine ⟨by decide, by decide, by decide, by decide, by decide⟩

/-! ## C7 -/

/-- C7 (amended: for first patch attempts, i.e. no sidecar present): a patch
attempt on an existing executable copies the pre-run executable bytes to the
timestamped backup path before the destructive move, whatever the outcome of
the attempt; and neither strategy ever deletes any path other than the
executable/sidecar pair, so backups are never automatically removed. -/
theorem C7_backup_created_and_kept
    (env : Env) (fs : FS) (ap : String) (info : AppInfo) (c : String)
    (hexe : fs (exePath ap info) = some c)
    (hside : fs (sidecarPath ap info) = none) :
    (patch_in_bundle env fs ap info).fs
      (backupPathOf (exePath ap info) env.timestamp) = some c ∧
    (∀ ts, backupPathOf (exePath ap info) ts ≠ exePath ap info ∧
      backupPathOf (exePath ap info) ts ≠ sidecarPath ap info) ∧
    (∀ env' fs' p, p ≠ exePath ap info → p ≠ sidecarPath ap info → ((fs' : FS) p).isSome →
      ((patch_in_bundle env' fs' ap info).fs p).isSome) ∧
    (∀ env' fs' p, p ≠ sidecarPath ap info → ((fs' : FS) p).isSome →
      ((create_script_and_wrapper env' fs' ap info).fs p).isSome) := by
  have hb1 := backupPath_ne_exePath ap info env.timestamp
  have hb2 := backupPath_ne_sidecarPath ap info env.timestamp
  refine ⟨?_,
    fun ts => ⟨backupPath_ne_exePath ap info ts, backupPath_ne_sidecarPath ap info ts⟩,
    fun env' fs' p h1 h2 h3 => patch_no_delete env' fs' ap info p h1 h2 h3,
    fun env' fs' p h1 h2 => script_no_delete env' fs' ap info p h1 h2⟩
  cases hww : env.write (exePath ap info) with
  | ok => exact (patch_first_run env fs ap info c hexe hside hww hb1 hb2).2.1
  | permDenied =>
      exact (patch_first_writeFail env fs ap info c hexe hside (by simp [hww]) hb1 hb2).2.2.1
  | otherErr =>
      exact (patch_first_writeFail env fs ap info c hexe hside (by simp [hww]) hb1 hb2).2.2.1

/-- Witness for C7: the first Chrome patch creates the backup, and a later
re-run does not delete it. -/
theorem C7_backup_created_and_kept_witness :
    (patch_in_bundle envOk1 fsChrome0 chromePath chromeInfo).fs
      (backupPathOf (exePath chromePath chromeInfo) "20250101_000000") = some "MACHO" ∧
    ((patch_in_bundle envOk2 fsChrome1 chromePath chromeInfo).fs
      (backupPathOf (exePath chromePath chromeInfo) "20250101_000000")).isSome := by
  have h := C7_backup_created_and_kept envOk1 fsChrome0 chromePath chromeInfo "MACHO"
    (by decide) (by decide)
  exact ⟨h.1, h.2.2.1 envOk2 fsChrome1
    (backupPathOf (exePath chromePath chromeInfo) "20250101_000000")
    (by decide) (by decide) (by decide)⟩

/-- Counterexample to C7 as stated: the second patch attempt on the
already-patched Chrome (executable present, attempt succeeds) creates no
backup at its own timestamp — only first-time attempts back up. -/
theorem C7_counterexample :
    (fsChrome1 (exePath chromePath chromeInfo)).isSome ∧
    (patch_in_bundle envOk2 fsChrome1 chromePath chromeInfo).res = .ok true ∧
    (patch_in_bundle envOk2 fsChrome1 chromePath chromeInfo).fs
      (backupPathOf (exePath chromePath chromeInfo) envOk2.timestamp) = none := by
  refine ⟨by decide, by decide, by decide⟩

/-! ## C5: state-machine view of one bundle under both strategies -/

/-- One mutating operation on a bundle, with the ambient nondeterminism of
that invocation. -/
inductive Op where
  | patch (env : Env)
  | script (env : Env)

/-- The filesystem after running one operation on the given bundle. -/
def stepFS (ap : String) (info : AppInfo) (fs : FS) : Op → FS
  | .patch env => (patch_in_bundle env fs ap info).fs
  | .script env => (create_script_and_wrapper env fs ap info).fs

/-- All filesystems observable along a sequence of operations (the initial
one included). -/
def statesFrom (ap : String) (info : AppInfo) (fs : FS) : List Op → List FS
  | [] => [fs]
  | op :: rest => fs :: statesFrom ap info (stepFS ap info fs op) rest

/-- The generated artifact paths of the external-script strategy do not
collide with the bundle's executable or sidecar (true of every configured
app; a side condition because paths are arbitrary strings here). -/
def artifactsOk (ap : String) (info : AppInfo) : Prop :=
  scriptPathOf info ≠ exePath ap info ∧ scriptPathOf info ≠ sidecarPath ap info ∧
  wrapperExecPathOf info ≠ exePath ap info ∧ wrapperExecPathOf info ≠ sidecarPath ap info ∧
  plistPathOf info ≠ exePath ap info ∧ plistPathOf info ≠ sidecarPath ap info ∧
  iconDestOf info ≠ exePath ap info ∧ iconDestOf info ≠ sidecarPath ap info

/-- The wrapper write of an in-bundle patch operation succeeds (the regime
in which the sidecar marker is reliable). -/
def wrapperWriteOk (ap : String) (info : AppInfo) : Op → Prop
  | .patch env => env.write (exePath ap info) = .ok
  | .script _ => True

/-- The bundle is currently patched in-bundle: the sidecar holds the
original bytes and the executable holds the wrapper script. -/
def patchedState (ap : String) (info : AppInfo) (c : String) (fs : FS) : Prop :=
  fs (sidecarPath ap info) = some c ∧
  fs (exePath ap info) = some (wrapper_script info.name info.flags (sidecarPath ap info))

/-- The bundle is unpatched: no sidecar, original bytes at the executable. -/
def unpatchedState (ap : String) (info : AppInfo) (c : String) (fs : FS) : Prop :=
  fs (sidecarPath ap info) = none ∧ fs (exePath ap info) = some c

/-- One step preserves the two-state invariant. -/
theorem inv_step (ap : String) (info : AppInfo) (c : String)
    (hart : artifactsOk ap info) (fs : FS) (op : Op)
    (hok : wrapperWriteOk ap info op)
    (hinv : unpatchedState ap info c fs ∨ patchedState ap info c fs) :
    unpatchedState ap info c (stepFS ap info fs op) ∨
    patchedState ap info c (stepFS ap info fs op) := by
  obtain ⟨h1, h2, h3, h4, h5, h6, h7, h8⟩ := hart
  cases op with
  | patch env =>
      simp only [wrapperWriteOk] at hok
      rcases hinv with ⟨hs, he⟩ | ⟨hs, he⟩
      · obtain ⟨-, -, hs', he', -⟩ := patch_first_run env fs ap info c he hs hok
          (backupPath_ne_exePath ap info env.timestamp)
          (backupPath_ne_sidecarPath ap info env.timestamp)
        cases hc : env.codesign <;> rw [hc] at hs' he' <;>
          simp only [Bool.false_eq_true, if_false, if_true, ite_false, ite_true] at hs' he'
        · exact Or.inl ⟨hs', he'⟩
        · exact Or.inr ⟨hs', he'⟩
      · obtain ⟨-, hs', he', -⟩ := patch_rerun env fs ap info
          (wrapper_script info.name info.flags (sidecarPath ap info)) c he hs hok
        cases hc : env.codesign <;> rw [hc] at hs' he' <;>
          simp only [Bool.false_eq_true, if_false, if_true, ite_false, ite_true] at hs' he'
        · exact Or.inl ⟨hs', he'⟩
        · exact Or.inr ⟨hs', he'⟩
  | script env =>
      rcases hinv with ⟨hs, he⟩ | ⟨hs, he⟩
      · obtain ⟨he', hs'⟩ := script_exe_fresh env fs ap info c he hs h1 h2 h3 h4 h5 h6 h7 h8
        exact Or.inl ⟨hs', he'⟩
      · obtain ⟨he', hs'⟩ := script_exe_restore env fs ap info
          (wrapper_script info.name info.flags (sidecarPath ap info)) c he hs
          h1 h2 h3 h4 h5 h6 h7 h8
        exact Or.inl ⟨hs', he'⟩

/-- The invariant holds at every observable state of a run. -/
theorem inv_states (ap : String) (info : AppInfo) (c : String)
    (hart : artifactsOk ap info) (ops : List Op)
    (hops : ∀ op ∈ ops, wrapperWriteOk ap info op) (fs : FS)
    (hinv : unpatchedState ap info c fs ∨ patchedState ap info c fs) :
    ∀ fs' ∈ statesFrom ap info fs ops,
      unpatchedState ap info c fs' ∨ patchedState ap info c fs' := by
  induction ops generalizing fs with
  | nil =>
      intro fs' hmem
      simp only [statesFrom, List.mem_singleton] at hmem
      exact hmem ▸ hinv
  | cons op rest ih =>
      intro fs' hmem
      simp only [statesFrom, List.mem_cons] at hmem
      rcases hmem with rfl | hmem
      · exact hinv
      · exact ih (fun o ho => hops o (List.mem_cons_of_mem _ ho))
          (stepFS ap info fs op)
          (inv_step ap info c hart fs op (hops op (List.mem_cons_self _ _)) hinv) fs' hmem

/-- C5 (amended: assuming every in-bundle wrapper write succeeds): starting
from an unpatched bundle, along any sequence of the two operations, every
observable state satisfies both halves of the invariant — never are the
sidecar present and the original bytes at the executable path together, and
the sidecar's presence is exactly equivalent to the wrapper being installed
at the executable path. -/
theorem C5_sidecar_is_patched_marker
    (ap : String) (info : AppInfo) (c : String) (fs : FS) (ops : List Op)
    (hart : artifactsOk ap info)
    (hcw : c ≠ wrapper_script info.name info.flags (sidecarPath ap info))
    (hs0 : fs (sidecarPath ap info) = none)
    (he0 : fs (exePath ap info) = some c)
    (hops : ∀ op ∈ ops, wrapperWriteOk ap info op) :
    ∀ fs' ∈ statesFrom ap info fs ops,
      ¬((fs' (sidecarPath ap info)).isSome ∧ fs' (exePath ap info) = some c) ∧
      ((fs' (sidecarPath ap info)).isSome ↔
        fs' (exePath ap info)
          = some (wrapper_script info.name info.flags (sidecarPath ap info))) := by
  intro fs' hmem
  rcases inv_states ap info c hart ops hops fs (Or.inl ⟨hs0, he0⟩) fs' hmem with
    ⟨hs, he⟩ | ⟨hs, he⟩
  · constructor
    · rintro ⟨habs, -⟩
      rw [hs] at habs
      simp at habs
    · constructor
      · intro habs
        rw [hs] at habs
        simp at habs
      · intro habs
        rw [he] at habs
        exact absurd (Option.some.inj habs) hcw
  · constructor
    · rintro ⟨-, habs⟩
      rw [he] at habs
      exact absurd (Option.some.inj habs).symm hcw
    · simp [hs, he]

/-- Witness for C5: Chrome patched in-bundle then switched to the external
strategy; at the intermediate (patched) state the sidecar is present and the
executable is not the original. -/
theorem C5_sidecar_is_patched_marker_witness :
    ¬(((stepFS chromePath chromeInfo fsChrome0 (.patch envOk1))
        (sidecarPath chromePath chromeInfo)).isSome ∧
      (stepFS chromePath chromeInfo fsChrome0 (.patch envOk1))
        (exePath chromePath chromeInfo) = some "MACHO") := by
  have h := C5_sidecar_is_patched_marker chromePath chromeInfo "MACHO" fsChrome0
    [.patch envOk1, .script envOk2]
    ⟨by decide, by decide, by decide, by decide, by decide, by decide, by decide, by decide⟩
    (by decide) (by decide) (by decide)
    (by
      intro op hop
      simp only [List.mem_cons, List.not_mem_nil, or_false] at hop
      rcases hop with rfl | rfl
      · exact rfl
      · trivial)
  exact (h (stepFS chromePath chromeInfo fsChrome0 (.patch envOk1))
    (by
      simp only [statesFrom]
      exact List.mem_cons_of_mem _ (List.mem_cons_self _ _))).1

/-- Counterexample to C5 as stated: a failed wrapper write during a first
patch (an ordinary caught error, reported as a per-app failure) leaves the
sidecar present while the executable path holds neither the wrapper nor the
original — the sidecar's presence is then not a marker of being patched
in-bundle. -/
theorem C5_counterexample :
    fsChrome0 (sidecarPath chromePath chromeInfo) = none ∧
    fsChrome0 (exePath chromePath chromeInfo) = some "MACHO" ∧
    (patch_in_bundle envWriteErr fsChrome0 chromePath chromeInfo).res = .ok false ∧
    ((stepFS chromePath chromeInfo fsChrome0 (.patch envWriteErr))
      (sidecarPath chromePath chromeInfo)).isSome ∧
    (stepFS chromePath chromeInfo fsChrome0 (.patch envWriteErr))
        (exePath chromePath chromeInfo)
      ≠ some (wrapper_script chromeInfo.name chromeInfo.flags
          (sidecarPath chromePath chromeInfo)) ∧
    (stepFS chromePath chromeInfo fsChrome0 (.patch envWriteErr))
      (exePath chromePath chromeInfo) ≠ some "MACHO" := by
  refine ⟨by decide, by decide, by decide, by decide, by decide, by decide⟩
